import Mathlib

/-!
Verification development for the InterView read-only observability facade.

The definitions below are a shallow embedding of `src/interview/models.py`,
`src/interview/config.py`, `src/interview/sources.py` and
`src/interview/api.py`.  Timestamps (`datetime`) are modelled as natural
numbers of milliseconds; network calls are modelled by passing the would-be
network outcome as an explicit `Option`-valued parameter (with `none`
standing for an HTTP failure or timeout); Python exceptions become an
explicit error type.  Dictionaries become association lists.
-/

namespace InterView

/-- Association-list lookup, modelling `dict` indexing / `in` tests. -/
def lookupKey {K V : Type} [DecidableEq K] (k : K) : List (K × V) → Option V
  | [] => none
  | (k', v) :: rest => if k = k' then some v else lookupKey k rest

/-- Association-list key removal, modelling `del d[k]` on a `dict`. -/
def removeKey {K V : Type} [DecidableEq K] (k : K) (l : List (K × V)) : List (K × V) :=
  l.filter (fun p => decide (p.1 ≠ k))

/-- Association-list update, modelling `d[k] = v` on a `dict`. -/
def setKey {K V : Type} [DecidableEq K] (k : K) (v : V) (l : List (K × V)) : List (K × V) :=
  (k, v) :: removeKey k l

/-- Truthiness of an optional string in Python (`if url:`): `None` and the
empty string are falsy. -/
def strTruthy : Option String → Bool
  | none => false
  | some s => decide (s ≠ "")

/-- Python `a or b` on two optional strings: returns `a` when it is truthy,
otherwise `b` (used for `root_task_id or task_id` in `api.py`). -/
def pyOrStr (a b : Option String) : Option String :=
  match a with
  | none => b
  | some s => if s = "" then b else some s

/-- Data source enum (`models.Source`). -/
inductive Source
  | projection_cache
  | ledger_mirror
  | component_poll
  | storage_metadata
  | global_ledger
deriving DecidableEq

/-- Freshness preference enum (`models.Freshness`). -/
inductive Freshness
  | cache_ok
  | prefer_fresh
  | force_fresh
deriving DecidableEq

/-- Derived task state enum (`models.TaskState`). -/
inductive TaskState
  | unknown
  | accepted
  | in_progress
  | escalated
  | blocked
  | resolved
  | shipped
deriving DecidableEq

/-- Exception taxonomy of `sources.py`: `SourceUnavailableError`,
the rate-limit `DataSourceError` raised by the component poller, and
`GlobalLedgerDisabledError`. -/
inductive DataErr
  | sourceUnavailable
  | rateLimitExceeded
  | globalLedgerDisabled
deriving DecidableEq

/-- Response metadata (`models.ResponseMetadata`). -/
structure ResponseMetadata where
  source : Source
  freshness_age_ms : Nat
  truncated : Bool := false
  next_page_token : Option String := none
  cost_units : Nat := 1
deriving DecidableEq

/-- Standard request controls (`models.RequestControls`).  The pydantic
field bounds (`ge`/`le`) are modelled by `RequestControls.validate` below. -/
structure RequestControls where
  limit : Nat := 100
  since : Option Nat := none
  time_window_hours : Nat := 24
  include_body : Bool := false
  freshness : Freshness := Freshness.cache_ok
deriving DecidableEq

/-- Pydantic validation of `RequestControls`: `limit` carries
`ge=1, le=200` and `time_window_hours` carries `ge=1, le=168`; a request
violating them is rejected (a 422 validation error) before any handler
runs. -/
def RequestControls.validate (c : RequestControls) : Option RequestControls :=
  if 1 ≤ c.limit ∧ c.limit ≤ 200 ∧ 1 ≤ c.time_window_hours ∧ c.time_window_hours ≤ 168 then
    some c
  else
    none

/-- Compact receipt header (`models.ReceiptHeader`). -/
structure ReceiptHeader where
  receipt_id : String
  phase : String
  task_id : String
  root_task_id : Option String := none
  tenant_id : String
  recipient_ai : Option String := none
  created_at : Option Nat := none
  stored_at : Option Nat := none
deriving DecidableEq

/-- Full receipt (`models.FullReceipt`). -/
structure FullReceipt where
  receipt_id : String
  tenant_id : String
  task_id : String
  root_task_id : Option String := none
  parent_task_id : Option String := none
  caused_by_receipt_id : Option String := none
  phase : String
  status : Option String := none
  from_principal : Option String := none
  for_principal : Option String := none
  source_system : Option String := none
  recipient_ai : Option String := none
  task_type : Option String := none
  task_summary : Option String := none
  outcome_kind : Option String := none
  outcome_text : Option String := none
  artifact_pointer : Option String := none
  escalation_class : Option String := none
  escalation_reason : Option String := none
  escalation_to : Option String := none
  created_at : Option Nat := none
  stored_at : Option Nat := none
  completed_at : Option Nat := none
  redacted : Bool := false
deriving DecidableEq

/-- Status summary for a lineage (`models.StatusSummary`). -/
structure StatusSummary where
  tenant_id : String
  root_task_id : String
  state : TaskState
  latest_receipt_id : Option String := none
  last_updated_at : Option Nat := none
  open_obligations_count : Option Nat := none
  shipment_status : Option String := none
  shipment_manifest_pointer : Option String := none
  artifact_pointers : List String := []
deriving DecidableEq

/-- Configuration knobs used by the verified operations (`config.Settings`,
with the source defaults). -/
structure Settings where
  ledger_mirror_url : Option String := none
  asyncgate_url : Option String := none
  allow_global_ledger : Bool := false
  global_ledger_url : Option String := none
  component_poll_rate_limit_per_minute : Nat := 60
  component_poll_timeout_ms : Nat := 500
  component_poll_cache_seconds : Nat := 5
  default_limit : Nat := 100
  max_limit : Nat := 200
  default_time_window_hours : Nat := 24
  max_time_window_hours : Nat := 168
  projection_cache_ttl_seconds : Nat := 60
deriving DecidableEq

/-- Settings with every field at its `config.py` default. -/
def defaultSettings : Settings := {}

/-- Projection cache state (`sources.ProjectionCache.__init__`): three
in-memory dicts mapping keys to values with their write timestamps. -/
structure ProjectionCache where
  status_cache : List ((String × String) × (StatusSummary × Nat)) := []
  receipt_headers : List (String × List ReceiptHeader) := []
  receipt_cache : List (String × (FullReceipt × Nat)) := []
deriving DecidableEq

/-- Age of a cache entry in milliseconds
(`ProjectionCache._cache_age_ms`). -/
def cacheAgeMs (now cached_at : Nat) : Nat := now - cached_at

/-- Cached status read (`ProjectionCache.get_status`): hit only while the
entry age is strictly below the TTL, otherwise the entry is deleted and the
read is a miss.  Returns the `(status?, age_ms)` pair together with the
cache state after the lazy eviction. -/
def ProjectionCache.get_status (settings : Settings) (c : ProjectionCache)
    (now : Nat) (tenant_id root_task_id : String) :
    (Option StatusSummary × Nat) × ProjectionCache :=
  match lookupKey (tenant_id, root_task_id) c.status_cache with
  | some (status, cached_at) =>
      let age_ms := cacheAgeMs now cached_at
      if age_ms < settings.projection_cache_ttl_seconds * 1000 then
        ((some status, age_ms), c)
      else
        ((none, 0), { c with status_cache := removeKey (tenant_id, root_task_id) c.status_cache })
  | none => ((none, 0), c)

/-- Status write (`ProjectionCache.cache_status`): unconditional overwrite
keyed by tenant and lineage. -/
def ProjectionCache.cache_status (c : ProjectionCache) (now : Nat)
    (status : StatusSummary) : ProjectionCache :=
  { c with status_cache := setKey (status.tenant_id, status.root_task_id) (status, now) c.status_cache }

/-- Sort key of `ProjectionCache.search_receipts`: `created_at`, with
`datetime.min` (here `0`) when absent. -/
def receiptSortKey (h : ReceiptHeader) : Nat := h.created_at.getD 0

/-- Stable insertion of a header into a list sorted by `receiptSortKey`
descending (matches Python `sorted(..., reverse=True)` stability). -/
def insertByCreatedDesc (x : ReceiptHeader) : List ReceiptHeader → List ReceiptHeader
  | [] => [x]
  | y :: ys =>
      if receiptSortKey x < receiptSortKey y then y :: insertByCreatedDesc x ys
      else x :: y :: ys

/-- Stable sort by `created_at` descending, most recent first. -/
def sortByCreatedDesc : List ReceiptHeader → List ReceiptHeader
  | [] => []
  | x :: xs => insertByCreatedDesc x (sortByCreatedDesc xs)

/-- Cached header search (`ProjectionCache.search_receipts`): filter by
phase / recipient / since, sort by `created_at` descending, truncate to
`limit`; the reported age is the hard-coded 1000 ms for non-empty results.
No TTL check and no cache mutation occur on this path. -/
def ProjectionCache.search_receipts (c : ProjectionCache)
    (tenant_id root_task_id : String) (phase recipient_ai : Option String)
    (since : Option Nat) (limit : Nat) : List ReceiptHeader × Nat :=
  let key := tenant_id ++ ":" ++ root_task_id
  let headers0 := (lookupKey key c.receipt_headers).getD []
  let headers1 :=
    if strTruthy phase then headers0.filter (fun h => decide (some h.phase = phase))
    else headers0
  let headers2 :=
    if strTruthy recipient_ai then headers1.filter (fun h => decide (h.recipient_ai = recipient_ai))
    else headers1
  let headers3 :=
    match since with
    | some s =>
        headers2.filter (fun h =>
          match h.created_at with
          | some cAt => decide (s ≤ cAt)
          | none => false)
    | none => headers2
  let headers4 := (sortByCreatedDesc headers3).take limit
  let age_ms := if headers4.isEmpty then 0 else 1000
  (headers4, age_ms)

/-- Cached receipt read (`ProjectionCache.get_receipt`): returns the cached
entry with its age whenever the key is present — the source performs no TTL
comparison and no eviction here. -/
def ProjectionCache.get_receipt (c : ProjectionCache) (now : Nat)
    (tenant_id receipt_id : String) : Option FullReceipt × Nat :=
  match lookupKey (tenant_id ++ ":" ++ receipt_id) c.receipt_cache with
  | some (receipt, cached_at) => (some receipt, cacheAgeMs now cached_at)
  | none => (none, 0)

/-- Receipt write (`ProjectionCache.cache_receipt`). -/
def ProjectionCache.cache_receipt (c : ProjectionCache) (now : Nat)
    (receipt : FullReceipt) : ProjectionCache :=
  { c with receipt_cache := setKey (receipt.tenant_id ++ ":" ++ receipt.receipt_id) (receipt, now) c.receipt_cache }

/-- Ledger mirror query (`LedgerMirror.query_receipts`): unavailable when no
URL is configured; otherwise the network outcome decides (`none` models an
`httpx.HTTPError`, mapped to `SourceUnavailableError`). -/
def LedgerMirror.query_receipts (settings : Settings)
    (net : Option (List ReceiptHeader)) : Except DataErr (List ReceiptHeader) :=
  if strTruthy settings.ledger_mirror_url then
    match net with
    | some receipts => Except.ok receipts
    | none => Except.error DataErr.sourceUnavailable
  else
    Except.error DataErr.sourceUnavailable

/-- Request for `search.receipts.interview` (`models.SearchReceiptsRequest`). -/
structure SearchReceiptsRequest where
  tenant_id : String
  root_task_id : String
  phase : Option String := none
  recipient_ai : Option String := none
  controls : RequestControls := {}
deriving DecidableEq

/-- Response for `search.receipts.interview` (`models.SearchReceiptsResponse`). -/
structure SearchReceiptsResponse where
  receipts : List ReceiptHeader
  metadata : ResponseMetadata
deriving DecidableEq

/-- Request for `status.receipts.interview` (`models.StatusReceiptsRequest`). -/
structure StatusReceiptsRequest where
  tenant_id : String
  task_id : Option String := none
  root_task_id : Option String := none
deriving DecidableEq

/-- Response for `status.receipts.interview` (`models.StatusReceiptsResponse`). -/
structure StatusReceiptsResponse where
  status : StatusSummary
  metadata : ResponseMetadata
deriving DecidableEq

/-- Effective limit computed by `search_receipts_interview`
(`api.py`: `limit = min(controls.limit, settings.max_limit)`). -/
def searchEffectiveLimit (controls : RequestControls) (settings : Settings) : Nat :=
  min controls.limit settings.max_limit

/-- Effective `since` computed by `search_receipts_interview` (`api.py`:
an explicit `since` is used as given; otherwise
`utcnow() - timedelta(hours=controls.time_window_hours)`). -/
def searchResolveSince (controls : RequestControls) (now : Nat) : Nat :=
  match controls.since with
  | some s => s
  | none => now - controls.time_window_hours * 3600000

/-- Projection-cache stage of `search_receipts_interview`: the
`sources.projection_cache.search_receipts(...)` call with the effective
limit and `since`. -/
def searchCachePart (settings : Settings) (cache : ProjectionCache)
    (req : SearchReceiptsRequest) (now : Nat) : List ReceiptHeader × Nat :=
  ProjectionCache.search_receipts cache req.tenant_id req.root_task_id
    req.phase req.recipient_ai (some (searchResolveSince req.controls now))
    (searchEffectiveLimit req.controls settings)

/-- Handler `api.search_receipts_interview`.  The second component of the
result records whether the ledger-mirror fallback block was entered.  The
cache state is not part of the result because this handler never writes to
the projection cache. -/
def search_receipts_interview (settings : Settings) (cache : ProjectionCache)
    (req : SearchReceiptsRequest) (now : Nat)
    (mirrorNet : Option (List ReceiptHeader)) : SearchReceiptsResponse × Bool :=
  let limit := searchEffectiveLimit req.controls settings
  let cacheRes := searchCachePart settings cache req now
  let receipts := cacheRes.1
  let age_ms := cacheRes.2
  if receipts.isEmpty ∧
      (req.controls.freshness = Freshness.prefer_fresh ∨
       req.controls.freshness = Freshness.force_fresh) then
    match LedgerMirror.query_receipts settings mirrorNet with
    | Except.ok rs =>
        ({ receipts := rs,
           metadata := { source := Source.ledger_mirror, freshness_age_ms := 0,
                         truncated := decide (limit ≤ rs.length),
                         cost_units := max 1 (rs.length / 10) } }, true)
    | Except.error _ =>
        ({ receipts := receipts,
           metadata := { source := Source.projection_cache, freshness_age_ms := age_ms,
                         truncated := decide (limit ≤ receipts.length),
                         cost_units := max 1 (receipts.length / 10) } }, true)
  else
    ({ receipts := receipts,
       metadata := { source := Source.projection_cache, freshness_age_ms := age_ms,
                     truncated := decide (limit ≤ receipts.length),
                     cost_units := max 1 (receipts.length / 10) } }, false)

/-- Handler `api.status_receipts_interview`: resolve the lineage id
(`root_task_id or task_id`, HTTP 400 when falsy), consult only the
projection cache, and fall back to an `unknown` status on a miss.  The
result carries the cache state after the call (the only possible mutation
is the lazy eviction inside `get_status`; no status is ever written back). -/
def status_receipts_interview (settings : Settings) (cache : ProjectionCache)
    (req : StatusReceiptsRequest) (now : Nat) :
    Except Nat (StatusReceiptsResponse × ProjectionCache) :=
  match pyOrStr req.root_task_id req.task_id with
  | none => Except.error 400
  | some root =>
      if root = "" then Except.error 400
      else
        let res := ProjectionCache.get_status settings cache now req.tenant_id root
        match res.1.1 with
        | some st =>
            Except.ok
              ({ status := st,
                 metadata := { source := Source.projection_cache,
                               freshness_age_ms := res.1.2, truncated := false,
                               cost_units := 1 } }, res.2)
        | none =>
            Except.ok
              ({ status := { tenant_id := req.tenant_id, root_task_id := root,
                             state := TaskState.unknown },
                 metadata := { source := Source.projection_cache,
                               freshness_age_ms := 0, truncated := false,
                               cost_units := 1 } }, res.2)

/-- Component poller state (`sources.ComponentPoller.__init__`): the
result cache `self._cache` and the per-component rate-limiter timestamp
lists `self._rate_limiter`.  The poll payload type is a parameter `α`
(the Python code stores untyped JSON dicts). -/
structure ComponentPoller (α : Type) where
  cache : List (String × (α × Nat)) := []
  rate_limiter : List (String × List Nat) := []
deriving DecidableEq

/-- Fresh-cache read (`ComponentPoller._get_cached`): return the entry with
its age while the age is strictly below the configured cache duration;
an expired entry is deleted before reporting a miss. -/
def ComponentPoller.get_cached {α : Type} (settings : Settings)
    (st : ComponentPoller α) (now : Nat) (cache_key : String) :
    Option (α × Nat) × ComponentPoller α :=
  match lookupKey cache_key st.cache with
  | some (data, cached_at) =>
      let age_ms := now - cached_at
      if age_ms < settings.component_poll_cache_seconds * 1000 then
        (some (data, age_ms), st)
      else
        (none, { st with cache := removeKey cache_key st.cache })
  | none => (none, st)

/-- Cache write after a successful poll (`ComponentPoller._set_cache`). -/
def ComponentPoller.set_cache {α : Type} (st : ComponentPoller α)
    (now : Nat) (cache_key : String) (data : α) : ComponentPoller α :=
  { st with cache := setKey cache_key (data, now) st.cache }

/-- Trailing-60-second prune of a component's recorded call timestamps
(`ComponentPoller._check_rate_limit`, the `now - t < window` filter). -/
def pruneRateWindow (now : Nat) (entries : List Nat) : List Nat :=
  entries.filter (fun t => decide (now - t < 60000))

/-- Sliding-window rate-limit check (`ComponentPoller._check_rate_limit`):
prune the component's timestamps to the trailing minute, reject when the
pruned count is at or above the per-minute ceiling (without recording a new
timestamp), otherwise record `now` and allow. -/
def ComponentPoller.check_rate_limit {α : Type} (settings : Settings)
    (st : ComponentPoller α) (now : Nat) (component : String) :
    Bool × ComponentPoller α :=
  let entries := (lookupKey component st.rate_limiter).getD []
  let pruned := pruneRateWindow now entries
  if settings.component_poll_rate_limit_per_minute ≤ pruned.length then
    (false, { st with rate_limiter := setKey component pruned st.rate_limiter })
  else
    (true, { st with rate_limiter := setKey component (pruned ++ [now]) st.rate_limiter })

/-- Python `str(bool)` as used in the f-string cache keys. -/
def pyBoolStr (b : Bool) : String := if b then "True" else "False"

/-- Cache key of `poll_asyncgate_health`
(`f"asyncgate:health:{tenant_id}:{verbose}"`). -/
def healthCacheKey (tenant_id : String) (verbose : Bool) : String :=
  "asyncgate:health:" ++ tenant_id ++ ":" ++ pyBoolStr verbose

/-- Cache key of `poll_asyncgate_queue`
(`f"asyncgate:queue:{tenant_id}:{queue_id}:{limit}:{include_examples}"`;
Python renders a `None` queue id as the string `"None"`). -/
def queueCacheKey (tenant_id : String) (queue_id : Option String)
    (limit : Nat) (include_examples : Bool) : String :=
  "asyncgate:queue:" ++ tenant_id ++ ":" ++ queue_id.getD "None" ++ ":" ++
    toString limit ++ ":" ++ pyBoolStr include_examples

/-- Health poll (`ComponentPoller.poll_asyncgate_health`): cache check
first, then URL-configured check, then rate limit, then the network call
(`net`, with `none` for a timeout or transport failure).  The result
carries the new poller state and whether a network call was issued. -/
def poll_asyncgate_health {α : Type} (settings : Settings)
    (st : ComponentPoller α) (now : Nat) (tenant_id : String)
    (verbose : Bool) (net : Option α) :
    Except DataErr (α × Nat) × ComponentPoller α × Bool :=
  let cache_key := healthCacheKey tenant_id verbose
  let cachedRes := ComponentPoller.get_cached settings st now cache_key
  let st1 := cachedRes.2
  match cachedRes.1 with
  | some hit => (Except.ok hit, st1, false)
  | none =>
      if strTruthy settings.asyncgate_url then
        let rl := ComponentPoller.check_rate_limit settings st1 now "asyncgate"
        let st2 := rl.2
        if rl.1 then
          match net with
          | some data => (Except.ok (data, 0), ComponentPoller.set_cache st2 now cache_key data, true)
          | none => (Except.error DataErr.sourceUnavailable, st2, true)
        else
          (Except.error DataErr.rateLimitExceeded, st2, false)
      else
        (Except.error DataErr.sourceUnavailable, st1, false)

/-- Queue poll (`ComponentPoller.poll_asyncgate_queue`): same guard
sequence as the health poll, with the queue cache key. -/
def poll_asyncgate_queue {α : Type} (settings : Settings)
    (st : ComponentPoller α) (now : Nat) (tenant_id : String)
    (queue_id : Option String) (limit : Nat) (include_examples : Bool)
    (net : Option α) :
    Except DataErr (α × Nat) × ComponentPoller α × Bool :=
  let cache_key := queueCacheKey tenant_id queue_id limit include_examples
  let cachedRes := ComponentPoller.get_cached settings st now cache_key
  let st1 := cachedRes.2
  match cachedRes.1 with
  | some hit => (Except.ok hit, st1, false)
  | none =>
      if strTruthy settings.asyncgate_url then
        let rl := ComponentPoller.check_rate_limit settings st1 now "asyncgate"
        let st2 := rl.2
        if rl.1 then
          match net with
          | some data => (Except.ok (data, 0), ComponentPoller.set_cache st2 now cache_key data, true)
          | none => (Except.error DataErr.sourceUnavailable, st2, true)
        else
          (Except.error DataErr.rateLimitExceeded, st2, false)
      else
        (Except.error DataErr.sourceUnavailable, st1, false)

/-- Bounded metrics snapshot (`models.MetricsSnapshot`). -/
structure MetricsSnapshot where
  queued_count : Nat := 0
  leased_count : Nat := 0
  succeeded_count : Nat := 0
  failed_count : Nat := 0
deriving DecidableEq

/-- Payload of an AsyncGate health poll as read by the handler (`data.get`
and `"metrics" in data` in `api.health_async_interview`); an absent key is
`none`. -/
structure HealthData where
  component_id : Option String := none
  version : Option String := none
  uptime_seconds : Option Nat := none
  error_budget_status : Option String := none
  metrics : Option MetricsSnapshot := none
deriving DecidableEq

/-- Request for `health.async.interview` (`models.HealthAsyncRequest`). -/
structure HealthAsyncRequest where
  tenant_id : String
  verbose : Bool := false
deriving DecidableEq

/-- Response for `health.async.interview` (`models.HealthAsyncResponse`). -/
structure HealthAsyncResponse where
  component_id : String
  reachable : Bool
  version : Option String := none
  uptime_seconds : Option Nat := none
  error_budget_status : Option String := none
  metrics_snapshot : Option MetricsSnapshot := none
  metadata : ResponseMetadata
deriving DecidableEq

/-- Handler `api.health_async_interview`: a successful poll becomes a
reachable snapshot, `SourceUnavailableError` degrades to
`reachable = false`, and any other `DataSourceError` (the rate-limit
rejection) is surfaced as HTTP 429.  The result carries the poller state
after the call. -/
def health_async_interview (settings : Settings)
    (st : ComponentPoller HealthData) (req : HealthAsyncRequest) (now : Nat)
    (net : Option HealthData) :
    Except Nat HealthAsyncResponse × ComponentPoller HealthData :=
  match poll_asyncgate_health settings st now req.tenant_id req.verbose net with
  | (Except.ok (data, age_ms), st', _) =>
      let metrics := if req.verbose ∧ data.metrics.isSome then data.metrics else none
      (Except.ok
        { component_id := data.component_id.getD "asyncgate",
          reachable := true,
          version := data.version,
          uptime_seconds := data.uptime_seconds,
          error_budget_status := data.error_budget_status,
          metrics_snapshot := metrics,
          metadata := { source := Source.component_poll, freshness_age_ms := age_ms,
                        truncated := false, cost_units := 5 } }, st')
  | (Except.error DataErr.sourceUnavailable, st', _) =>
      (Except.ok
        { component_id := "asyncgate", reachable := false,
          metadata := { source := Source.component_poll, freshness_age_ms := 0,
                        truncated := false, cost_units := 1 } }, st')
  | (Except.error _, st', _) => (Except.error 429, st')

/-- Queue item header (`models.QueueItemHeader`). -/
structure QueueItemHeader where
  task_id : String
  task_type : String
  status : String
  priority : Nat := 0
  created_at : Option Nat := none
  age_ms : Nat := 0
deriving DecidableEq

/-- Payload of an AsyncGate queue poll as read by the handler
(`data.get(..., 0)` and `"items" in data` in `api.queue_async_interview`). -/
structure QueueData where
  queue_depth : Option Nat := none
  oldest_item_age_ms : Option Nat := none
  active_leases_count : Option Nat := none
  items : Option (List QueueItemHeader) := none
deriving DecidableEq

/-- Request for `queue.async.interview` (`models.QueueAsyncRequest`); the
pydantic bound on `limit` is `ge=1, le=50`, modelled by
`QueueAsyncRequest.validLimit` below. -/
structure QueueAsyncRequest where
  tenant_id : String
  queue_id : Option String := none
  limit : Nat := 20
  include_examples : Bool := false
deriving DecidableEq

/-- Pydantic bound on `QueueAsyncRequest.limit` (`ge=1, le=50`). -/
def QueueAsyncRequest.validLimit (req : QueueAsyncRequest) : Prop :=
  1 ≤ req.limit ∧ req.limit ≤ 50

/-- Response for `queue.async.interview` (`models.QueueAsyncResponse`). -/
structure QueueAsyncResponse where
  queue_depth : Nat
  oldest_item_age_ms : Nat := 0
  active_leases_count : Nat := 0
  items : List QueueItemHeader := []
  metadata : ResponseMetadata
deriving DecidableEq

/-- Handler `api.queue_async_interview`: clamp the limit to at most 50,
poll, expose item headers only when `include_examples` is set (and then at
most `limit` of them), degrade to an empty snapshot on unavailability, and
surface the rate-limit rejection as HTTP 429. -/
def queue_async_interview (settings : Settings)
    (st : ComponentPoller QueueData) (req : QueueAsyncRequest) (now : Nat)
    (net : Option QueueData) :
    Except Nat QueueAsyncResponse × ComponentPoller QueueData :=
  let limit := min req.limit 50
  match poll_asyncgate_queue settings st now req.tenant_id req.queue_id limit
      req.include_examples net with
  | (Except.ok (data, age_ms), st', _) =>
      let items :=
        if req.include_examples ∧ data.items.isSome then (data.items.getD []).take limit
        else []
      (Except.ok
        { queue_depth := data.queue_depth.getD 0,
          oldest_item_age_ms := data.oldest_item_age_ms.getD 0,
          active_leases_count := data.active_leases_count.getD 0,
          items := items,
          metadata := { source := Source.component_poll, freshness_age_ms := age_ms,
                        truncated := decide (limit ≤ items.length), cost_units := 5 } }, st')
  | (Except.error DataErr.sourceUnavailable, st', _) =>
      (Except.ok
        { queue_depth := 0, oldest_item_age_ms := 0, active_leases_count := 0,
          items := [],
          metadata := { source := Source.component_poll, freshness_age_ms := 0,
                        truncated := false, cost_units := 1 } }, st')
  | (Except.error _, st', _) => (Except.error 429, st')

/-- Global-ledger query (`GlobalLedger.query_receipts` together with
`GlobalLedger._check_access`): the opt-in flag is checked before the URL
and before any transport work, so a disabled gate yields the distinct
policy error; the second component records whether a network call was
issued. -/
def GlobalLedger.query_receipts (settings : Settings)
    (net : Option (List ReceiptHeader)) :
    Except DataErr (List ReceiptHeader) × Bool :=
  if settings.allow_global_ledger then
    if strTruthy settings.global_ledger_url then
      match net with
      | some receipts => (Except.ok receipts, true)
      | none => (Except.error DataErr.sourceUnavailable, true)
    else
      (Except.error DataErr.sourceUnavailable, false)
  else
    (Except.error DataErr.globalLedgerDisabled, false)

/-- Handler `api.global_ledger_query`: re-checks the opt-in flag first and
returns HTTP 403 with the `GLOBAL_LEDGER_DISABLED` error code before any
source work; a disabled error from the source is also 403, and
unavailability is HTTP 503.  The error side is `(status, error_code)`. -/
def global_ledger_query (settings : Settings) (tenant_id root_task_id : String)
    (net : Option (List ReceiptHeader)) :
    Except (Nat × String) (List ReceiptHeader × ResponseMetadata) × Bool :=
  if settings.allow_global_ledger then
    match GlobalLedger.query_receipts settings net with
    | (Except.ok receipts, called) =>
        (Except.ok (receipts,
          { source := Source.global_ledger, freshness_age_ms := 0,
            truncated := false, cost_units := 100 }), called)
    | (Except.error DataErr.globalLedgerDisabled, called) =>
        (Except.error (403, "GLOBAL_LEDGER_DISABLED"), called)
    | (Except.error _, called) => (Except.error (503, "SOURCE_UNAVAILABLE"), called)
  else
    (Except.error (403, "GLOBAL_LEDGER_DISABLED"), false)

/-- Decidable equality on `Except`, so the concrete evaluations below can
be settled by `decide`. -/
instance {ε α : Type} [DecidableEq ε] [DecidableEq α] : DecidableEq (Except ε α) := fun x y =>
  match x, y with
  | Except.error a, Except.error b =>
      if h : a = b then isTrue (by rw [h]) else isFalse (by intro hc; cases hc; exact h rfl)
  | Except.ok a, Except.ok b =>
      if h : a = b then isTrue (by rw [h]) else isFalse (by intro hc; cases hc; exact h rfl)
  | Except.error _, Except.ok _ => isFalse (by intro hc; cases hc)
  | Except.ok _, Except.error _ => isFalse (by intro hc; cases hc)

/-! Concrete fixtures for the counterexamples and witnesses. -/

/-- Settings with a configured ledger mirror (all other knobs default). -/
def mirrorOnSettings : Settings := { ledger_mirror_url := some "http://mirror" }

/-- An empty projection cache. -/
def emptyCache : ProjectionCache := {}

/-- Reference time (ms) for the concrete evaluations. -/
def now0 : Nat := 1000000000

/-- A receipt header served by the mirror in the fixtures. -/
def hdrMirror : ReceiptHeader :=
  { receipt_id := "rm", phase := "complete", task_id := "t1",
    root_task_id := some "root1", tenant_id := "ten1", created_at := some 999000000 }

/-- A receipt header resident in the projection cache in the fixtures. -/
def hdrCached : ReceiptHeader :=
  { receipt_id := "rc", phase := "complete", task_id := "t1",
    root_task_id := some "root1", tenant_id := "ten1", created_at := some 999500000 }

/-- A projection cache holding one header for lineage `ten1`/`root1`. -/
def cacheWithHeader : ProjectionCache :=
  { receipt_headers := [("ten1:root1", [hdrCached])] }

/-- Search request for lineage `ten1`/`root1` with default controls
(`freshness = cache_ok`). -/
def reqCacheOk : SearchReceiptsRequest := { tenant_id := "ten1", root_task_id := "root1" }

/-- The same search request with `freshness = force_fresh`. -/
def reqForceFresh : SearchReceiptsRequest :=
  { tenant_id := "ten1", root_task_id := "root1",
    controls := { freshness := Freshness.force_fresh } }

/-- C1 counterexample: with `freshness = cache_ok` (the default), an empty
projection cache, a configured ledger mirror and a mirror that would return
a receipt, the handler still answers from the cache: the response is empty,
attributed to `projection_cache`, and the mirror fallback block is never
entered — contradicting the claimed `ledger_mirror` attribution. -/
theorem search_cacheOk_empty_cache_ignores_mirror_cex :
    (search_receipts_interview mirrorOnSettings emptyCache reqCacheOk now0 (some [hdrMirror])).1.receipts = [] ∧
    (search_receipts_interview mirrorOnSettings emptyCache reqCacheOk now0 (some [hdrMirror])).1.metadata.source = Source.projection_cache ∧
    (search_receipts_interview mirrorOnSettings emptyCache reqCacheOk now0 (some [hdrMirror])).2 = false ∧
    Source.projection_cache ≠ Source.ledger_mirror := by
  decide

/-- C1 (amended): for every request with `freshness = cache_ok` the ledger
mirror is never consulted (the fallback in `api.py` requires
`prefer_fresh` or `force_fresh`); the response always carries the
projection-cache result with `source = projection_cache`. -/
theorem search_cacheOk_never_consults_mirror (settings : Settings)
    (cache : ProjectionCache) (req : SearchReceiptsRequest) (now : Nat)
    (net : Option (List ReceiptHeader))
    (h : req.controls.freshness = Freshness.cache_ok) :
    (search_receipts_interview settings cache req now net).2 = false ∧
    (search_receipts_interview settings cache req now net).1.metadata.source = Source.projection_cache ∧
    (search_receipts_interview settings cache req now net).1.receipts = (searchCachePart settings cache req now).1 := by
  simp [search_receipts_interview, h]

/-- Witness for the amended C1 theorem at a concrete input. -/
theorem search_cacheOk_never_consults_mirror_witness :
    (search_receipts_interview mirrorOnSettings cacheWithHeader reqCacheOk now0 (some [hdrMirror])).2 = false ∧
    (search_receipts_interview mirrorOnSettings cacheWithHeader reqCacheOk now0 (some [hdrMirror])).1.metadata.source = Source.projection_cache ∧
    (search_receipts_interview mirrorOnSettings cacheWithHeader reqCacheOk now0 (some [hdrMirror])).1.receipts = (searchCachePart mirrorOnSettings cacheWithHeader reqCacheOk now0).1 :=
  search_cacheOk_never_consults_mirror mirrorOnSettings cacheWithHeader reqCacheOk now0
    (some [hdrMirror]) rfl

/-- C2 counterexample: with `freshness = force_fresh` the cache is not
bypassed — a non-empty cache answers the query and the mirror block is
never entered (first conjunct) — and mirror unavailability does not
propagate as an error: with an empty cache and an unreachable mirror the
handler returns a plain empty response attributed to `projection_cache`
(second conjunct). -/
theorem search_forceFresh_cache_not_bypassed_cex :
    ((search_receipts_interview mirrorOnSettings cacheWithHeader reqForceFresh now0 (some [hdrMirror])).2 = false ∧
     (search_receipts_interview mirrorOnSettings cacheWithHeader reqForceFresh now0 (some [hdrMirror])).1.receipts = [hdrCached] ∧
     (search_receipts_interview mirrorOnSettings cacheWithHeader reqForceFresh now0 (some [hdrMirror])).1.metadata.source = Source.projection_cache) ∧
    (search_receipts_interview mirrorOnSettings emptyCache reqForceFresh now0 none).1 =
      { receipts := [],
        metadata := { source := Source.projection_cache, freshness_age_ms := 0,
                      truncated := false, cost_units := 1 } } := by
  decide

/-- C2 (amended): with `freshness = force_fresh` the projection cache is
still consulted first — the mirror block runs only when the cache result is
empty — and when the mirror is unavailable the handler falls back to the
(empty) cache result attributed to `projection_cache` instead of
propagating an error. -/
theorem search_forceFresh_cache_first_mirror_swallowed (settings : Settings)
    (cache : ProjectionCache) (req : SearchReceiptsRequest) (now : Nat)
    (net : Option (List ReceiptHeader))
    (hf : req.controls.freshness = Freshness.force_fresh) :
    ((search_receipts_interview settings cache req now net).2 = true →
      (searchCachePart settings cache req now).1 = []) ∧
    (LedgerMirror.query_receipts settings net = Except.error DataErr.sourceUnavailable →
      (search_receipts_interview settings cache req now net).1.metadata.source = Source.projection_cache ∧
      (search_receipts_interview settings cache req now net).1.receipts = (searchCachePart settings cache req now).1) := by
  constructor
  · intro h2
    by_cases hemp : (searchCachePart settings cache req now).1 = []
    · exact hemp
    · exfalso
      have hfalse : (search_receipts_interview settings cache req now net).2 = false := by
        simp [search_receipts_interview, List.isEmpty_iff, hemp]
      rw [h2] at hfalse
      exact absurd hfalse (by decide)
  · intro hm
    by_cases hemp : (searchCachePart settings cache req now).1 = []
    · simp [search_receipts_interview, List.isEmpty_iff, hemp, hf, hm]
    · simp [search_receipts_interview, List.isEmpty_iff, hemp]

/-- Witness for the amended C2 theorem at a concrete input. -/
theorem search_forceFresh_cache_first_mirror_swallowed_witness :
    (search_receipts_interview mirrorOnSettings emptyCache reqForceFresh now0 none).1.metadata.source = Source.projection_cache ∧
    (search_receipts_interview mirrorOnSettings emptyCache reqForceFresh now0 none).1.receipts = (searchCachePart mirrorOnSettings emptyCache reqForceFresh now0).1 :=
  (search_forceFresh_cache_first_mirror_swallowed mirrorOnSettings emptyCache reqForceFresh
    now0 none rfl).2 (by decide)

/-- Status request for lineage `ten1`/`root1`. -/
def reqStatus : StatusReceiptsRequest := { tenant_id := "ten1", root_task_id := some "root1" }

/-- C3 counterexample: on a projection-cache miss the status handler does
not query the ledger mirror, derives nothing, and writes nothing back — it
returns an `unknown` status attributed to `projection_cache` with the cache
state unchanged, contradicting the claimed mirror query, write-back and
`ledger_mirror` attribution. -/
theorem status_miss_no_mirror_no_writeback_cex :
    status_receipts_interview defaultSettings emptyCache reqStatus now0 =
      Except.ok
        ({ status := { tenant_id := "ten1", root_task_id := "root1", state := TaskState.unknown },
           metadata := { source := Source.projection_cache, freshness_age_ms := 0,
                         truncated := false, cost_units := 1 } }, emptyCache) ∧
    Source.projection_cache ≠ Source.ledger_mirror := by
  decide

/-- C3 (amended): whenever the resolved lineage id is non-empty and the
projection cache reports a miss, the handler returns an `unknown`-state
summary with `source = projection_cache` and `freshness_age_ms = 0`, and
the only cache mutation is the lazy eviction performed inside
`get_status` — no derived status is written back and no mirror is
consulted. -/
theorem status_miss_returns_unknown_from_cache (settings : Settings)
    (cache : ProjectionCache) (req : StatusReceiptsRequest) (now : Nat)
    (root : String)
    (h1 : pyOrStr req.root_task_id req.task_id = some root) (h2 : root ≠ "")
    (hmiss : (ProjectionCache.get_status settings cache now req.tenant_id root).1.1 = none) :
    status_receipts_interview settings cache req now =
      Except.ok
        ({ status := { tenant_id := req.tenant_id, root_task_id := root,
                       state := TaskState.unknown },
           metadata := { source := Source.projection_cache, freshness_age_ms := 0,
                         truncated := false, cost_units := 1 } },
         (ProjectionCache.get_status settings cache now req.tenant_id root).2) := by
  simp [status_receipts_interview, h1, h2, hmiss]

/-- Witness for the amended C3 theorem at a concrete input. -/
theorem status_miss_returns_unknown_from_cache_witness :
    status_receipts_interview defaultSettings emptyCache reqStatus now0 =
      Except.ok
        ({ status := { tenant_id := "ten1", root_task_id := "root1",
                       state := TaskState.unknown },
           metadata := { source := Source.projection_cache, freshness_age_ms := 0,
                         truncated := false, cost_units := 1 } },
         (ProjectionCache.get_status defaultSettings emptyCache now0 "ten1" "root1").2) :=
  status_miss_returns_unknown_from_cache defaultSettings emptyCache reqStatus now0 "root1"
    rfl (by decide) rfl

/-- A cached full receipt used by the TTL fixtures. -/
def rcpt1 : FullReceipt :=
  { receipt_id := "r1", tenant_id := "ten1", task_id := "t1", phase := "complete" }

/-- A cached status summary used by the TTL fixtures. -/
def statusS1 : StatusSummary :=
  { tenant_id := "ten1", root_task_id := "root1", state := TaskState.resolved }

/-- Projection cache holding a status entry and a full receipt, both
written at time 0. -/
def cacheTtl : ProjectionCache :=
  { status_cache := [(("ten1", "root1"), (statusS1, 0))],
    receipt_cache := [("ten1:r1", (rcpt1, 0))] }

/-- C4 counterexample: a full receipt cached at time 0 and read 61 s later
with the default TTL of 60 s is returned as a hit with age 61000 ms —
`get_receipt` performs no TTL comparison and no eviction, contradicting the
claimed miss-and-evict behaviour for every read operation. -/
theorem get_receipt_ignores_ttl_cex :
    ProjectionCache.get_receipt cacheTtl 61000 "ten1" "r1" = (some rcpt1, 61000) ∧
    defaultSettings.projection_cache_ttl_seconds * 1000 ≤ 61000 ∧
    (some rcpt1 ≠ (none : Option FullReceipt)) := by
  decide

/-- C4 (amended): only `get_status` applies the TTL rule — an entry whose
age is at or above the TTL is a miss and is evicted — while `get_receipt`
returns any cached entry regardless of its age (with the true age) and
never evicts, and `search_receipts` computes no per-entry age at all (its
reported age is 0 or the hard-coded 1000 ms). -/
theorem cache_ttl_applies_to_status_only (settings : Settings)
    (c : ProjectionCache) (now : Nat) (tenant root rid : String)
    (st : StatusSummary) (rc : FullReceipt) (tS tR : Nat)
    (t r : String) (p re : Option String) (s : Option Nat) (l : Nat)
    (hs : lookupKey (tenant, root) c.status_cache = some (st, tS))
    (hexp : settings.projection_cache_ttl_seconds * 1000 ≤ now - tS)
    (hr : lookupKey (tenant ++ ":" ++ rid) c.receipt_cache = some (rc, tR)) :
    ProjectionCache.get_status settings c now tenant root =
      ((none, 0), { c with status_cache := removeKey (tenant, root) c.status_cache }) ∧
    ProjectionCache.get_receipt c now tenant rid = (some rc, now - tR) ∧
    ((ProjectionCache.search_receipts c t r p re s l).2 = 0 ∨
     (ProjectionCache.search_receipts c t r p re s l).2 = 1000) := by
  refine ⟨?_, ?_, ?_⟩
  · simp only [ProjectionCache.get_status, hs, cacheAgeMs]
    rw [if_neg (by omega)]
  · simp [ProjectionCache.get_receipt, hr, cacheAgeMs]
  · have hage : (ProjectionCache.search_receipts c t r p re s l).2 =
        if (ProjectionCache.search_receipts c t r p re s l).1.isEmpty then 0 else 1000 := rfl
    rw [hage]
    by_cases hb : (ProjectionCache.search_receipts c t r p re s l).1.isEmpty
    · left
      simp [hb]
    · right
      simp [hb]

/-- Witness for the amended C4 theorem at a concrete input. -/
theorem cache_ttl_applies_to_status_only_witness :
    ProjectionCache.get_status defaultSettings cacheTtl 61000 "ten1" "root1" =
      ((none, 0), { cacheTtl with status_cache := removeKey ("ten1", "root1") cacheTtl.status_cache }) ∧
    ProjectionCache.get_receipt cacheTtl 61000 "ten1" "r1" = (some rcpt1, 61000 - 0) ∧
    ((ProjectionCache.search_receipts cacheTtl "ten1" "root1" none none none 10).2 = 0 ∨
     (ProjectionCache.search_receipts cacheTtl "ten1" "root1" none none none 10).2 = 1000) :=
  cache_ttl_applies_to_status_only defaultSettings cacheTtl 61000 "ten1" "root1" "r1"
    statusS1 rcpt1 0 0 "ten1" "root1" none none none 10 (by decide) (by decide) (by decide)

/-- A receipt header far older than `now0` minus the maximum window. -/
def hdrOld : ReceiptHeader :=
  { receipt_id := "ro", phase := "complete", task_id := "t1",
    root_task_id := some "root1", tenant_id := "ten1", created_at := some 5 }

/-- Projection cache holding only the very old header. -/
def cacheOldHdr : ProjectionCache :=
  { receipt_headers := [("ten1:root1", [hdrOld])] }

/-- Search request carrying an explicit `since` of 0, far older than
`now0 - max_window_hours`. -/
def reqOldSince : SearchReceiptsRequest :=
  { tenant_id := "ten1", root_task_id := "root1", controls := { since := some 0 } }

/-- C5 counterexample: an explicit `since = 0` far older than
`now0 − max_window_hours` is used as given — the effective `since` is 0,
not the claimed clamp value — and the handler consequently serves a
receipt created long before `now0 − max_window_hours`. -/
theorem explicit_since_not_clamped_cex :
    searchResolveSince { since := some 0 } now0 = 0 ∧
    0 < now0 - defaultSettings.max_time_window_hours * 3600000 ∧
    searchResolveSince { since := some 0 } now0 ≠
      now0 - defaultSettings.max_time_window_hours * 3600000 ∧
    (search_receipts_interview defaultSettings cacheOldHdr reqOldSince now0 none).1.receipts = [hdrOld] := by
  decide

/-- C5 (amended): an explicit `since` is passed through unclamped whatever
its age; only when `since` is absent does the handler derive
`now − time_window_hours`, and for a validated window
(`time_window_hours ≤ 168`) that derived value is never older than
`now − 168 h`. -/
theorem resolve_since_passthrough (c : RequestControls) (now : Nat)
    (hv : c.time_window_hours ≤ 168) :
    (∀ s, c.since = some s → searchResolveSince c now = s) ∧
    (c.since = none →
      searchResolveSince c now = now - c.time_window_hours * 3600000 ∧
      now - 168 * 3600000 ≤ searchResolveSince c now) := by
  constructor
  · intro s hs
    simp [searchResolveSince, hs]
  · intro hn
    constructor
    · simp [searchResolveSince, hn]
    · have h1 : searchResolveSince c now = now - c.time_window_hours * 3600000 := by
        simp [searchResolveSince, hn]
      rw [h1]
      omega

/-- Witness for the amended C5 theorem at a concrete input. -/
theorem resolve_since_passthrough_witness :
    searchResolveSince {} now0 = now0 - 24 * 3600000 ∧
    now0 - 168 * 3600000 ≤ searchResolveSince {} now0 :=
  (resolve_since_passthrough {} now0 (by decide)).2 rfl

/-- C6 counterexample: a request with `limit = 9999` fails the pydantic
bound `le = 200` on `RequestControls.limit`, so it is rejected with a
validation error and never served at all — contradicting the claimed
serving with effective limit 200. -/
theorem limit_9999_rejected_cex :
    RequestControls.validate { limit := 9999 } = none := by
  decide

/-- C6 (amended): for every request that passes validation
(`1 ≤ limit ≤ 200`) and a configured maximum `M ≥ 1`, the effective limit
is `min(L, M) = max(1, min(L, M))`, bounded by `M` and at least 1; a
request with limit 9999 is rejected by validation rather than clamped. -/
theorem effective_limit_clamped (c c' : RequestControls) (settings : Settings)
    (h : RequestControls.validate c = some c') (hM : 1 ≤ settings.max_limit) :
    searchEffectiveLimit c' settings = max 1 (min c'.limit settings.max_limit) ∧
    searchEffectiveLimit c' settings = min c'.limit settings.max_limit ∧
    searchEffectiveLimit c' settings ≤ settings.max_limit ∧
    1 ≤ searchEffectiveLimit c' settings := by
  unfold RequestControls.validate at h
  split at h
  · rename_i hcond
    obtain ⟨h1, h2, h3, h4⟩ := hcond
    injection h with h'
    subst h'
    refine ⟨?_, ?_, ?_, ?_⟩ <;> (unfold searchEffectiveLimit; omega)
  · exact absurd h (by simp)

/-- Witness for the amended C6 theorem at a concrete input. -/
theorem effective_limit_clamped_witness :
    searchEffectiveLimit {} defaultSettings = max 1 (min ({} : RequestControls).limit defaultSettings.max_limit) ∧
    searchEffectiveLimit {} defaultSettings = min ({} : RequestControls).limit defaultSettings.max_limit ∧
    searchEffectiveLimit {} defaultSettings ≤ defaultSettings.max_limit ∧
    1 ≤ searchEffectiveLimit {} defaultSettings :=
  effective_limit_clamped {} {} defaultSettings (by decide) (by decide)

/-- C7: with the opt-in flag off, every global-ledger query yields the
distinct `GlobalLedgerDisabled` policy error — never an unavailability
signal — and no network call is issued, whatever the configured endpoint or
the network state; the HTTP handler surfaces it as 403 with the
`GLOBAL_LEDGER_DISABLED` error code. -/
theorem global_ledger_disabled_distinct_policy_error (settings : Settings)
    (tenant root : String) (net : Option (List ReceiptHeader))
    (h : settings.allow_global_ledger = false) :
    GlobalLedger.query_receipts settings net = (Except.error DataErr.globalLedgerDisabled, false) ∧
    global_ledger_query settings tenant root net = (Except.error (403, "GLOBAL_LEDGER_DISABLED"), false) ∧
    DataErr.globalLedgerDisabled ≠ DataErr.sourceUnavailable := by
  refine ⟨?_, ?_, by decide⟩
  · simp [GlobalLedger.query_receipts, h]
  · simp [global_ledger_query, h]

/-- Settings with the global ledger endpoint configured but the opt-in
flag left at its default `false`. -/
def gledSettings : Settings := { global_ledger_url := some "http://ledger" }

/-- Witness for the C7 theorem: endpoint configured and reachable
(the network would answer), flag off. -/
theorem global_ledger_disabled_distinct_policy_error_witness :
    GlobalLedger.query_receipts gledSettings (some [hdrMirror]) = (Except.error DataErr.globalLedgerDisabled, false) ∧
    global_ledger_query gledSettings "ten1" "root1" (some [hdrMirror]) = (Except.error (403, "GLOBAL_LEDGER_DISABLED"), false) ∧
    DataErr.globalLedgerDisabled ≠ DataErr.sourceUnavailable :=
  global_ledger_disabled_distinct_policy_error gledSettings "ten1" "root1" (some [hdrMirror]) rfl

/-- C8: a fresh result-cache entry (age strictly below the configured
cache duration) answers a health or queue poll immediately: the cached
data is returned with its age, the poller state — rate limiter included —
is unchanged, and no network call is issued. -/
theorem poll_cache_hit_no_rate_slot {α : Type} (settings : Settings)
    (st : ComponentPoller α) (now : Nat) (tenant : String) (verbose : Bool)
    (queue_id : Option String) (limit : Nat) (inc : Bool) (d : α) (t : Nat)
    (net : Option α) :
    (lookupKey (healthCacheKey tenant verbose) st.cache = some (d, t) →
      now - t < settings.component_poll_cache_seconds * 1000 →
      poll_asyncgate_health settings st now tenant verbose net = (Except.ok (d, now - t), st, false)) ∧
    (lookupKey (queueCacheKey tenant queue_id limit inc) st.cache = some (d, t) →
      now - t < settings.component_poll_cache_seconds * 1000 →
      poll_asyncgate_queue settings st now tenant queue_id limit inc net = (Except.ok (d, now - t), st, false)) := by
  constructor
  · intro hc hf
    simp [poll_asyncgate_health, ComponentPoller.get_cached, hc, hf]
  · intro hc hf
    simp [poll_asyncgate_queue, ComponentPoller.get_cached, hc, hf]

/-- Poller state holding fresh cache entries for both the health and the
queue poll keys, written at time 0. -/
def pollerC8 : ComponentPoller Nat :=
  { cache := [(healthCacheKey "ten1" false, (7, 0)),
              (queueCacheKey "ten1" none 20 false, (7, 0))] }

/-- Witness for the C8 theorem: both polls at time 1000 (age 1000 ms,
below the default 5 s duration) are served from the cache untouched. -/
theorem poll_cache_hit_no_rate_slot_witness :
    poll_asyncgate_health defaultSettings pollerC8 1000 "ten1" false none = (Except.ok (7, 1000 - 0), pollerC8, false) ∧
    poll_asyncgate_queue defaultSettings pollerC8 1000 "ten1" none 20 false none = (Except.ok (7, 1000 - 0), pollerC8, false) := by
  have h := poll_cache_hit_no_rate_slot (α := Nat) defaultSettings pollerC8 1000 "ten1" false
    none 20 false 7 0 none
  exact ⟨h.1 (by decide) (by decide), h.2 (by decide) (by decide)⟩

/-- Poller state after a rejected rate-limited call: the component's
timestamp list is replaced by its trailing-60-second prune, with no new
timestamp appended (the write-back of the pruned list in
`ComponentPoller._check_rate_limit`). -/
def prunedOnlyState {a : Type} (st : ComponentPoller a) (now : Nat) : ComponentPoller a :=
  { st with rate_limiter := setKey "asyncgate" (pruneRateWindow now ((lookupKey "asyncgate" st.rate_limiter).getD [])) st.rate_limiter }

/-- C9: when the trailing-60-second timestamp count for the component is
already at or above the per-minute ceiling (and no fresh cache entry
short-circuits the call), the poll is rejected with the distinct
rate-limit error, no network call is issued, no new timestamp is recorded
(the rate-limiter list becomes exactly the pruned old list), and the HTTP
handler surfaces the rejection as a 429 error instead of substituting a
fallback. -/
theorem poll_rate_limited_surfaced (settings : Settings)
    (st : ComponentPoller HealthData) (req : HealthAsyncRequest) (now : Nat)
    (net : Option HealthData)
    (hmiss : lookupKey (healthCacheKey req.tenant_id req.verbose) st.cache = none)
    (hurl : strTruthy settings.asyncgate_url = true)
    (hfull : settings.component_poll_rate_limit_per_minute ≤
      (pruneRateWindow now ((lookupKey "asyncgate" st.rate_limiter).getD [])).length) :
    poll_asyncgate_health settings st now req.tenant_id req.verbose net =
      (Except.error DataErr.rateLimitExceeded, prunedOnlyState st now, false) ∧
    health_async_interview settings st req now net =
      (Except.error 429, prunedOnlyState st now) ∧
    DataErr.rateLimitExceeded ≠ DataErr.sourceUnavailable := by
  have h1 : poll_asyncgate_health settings st now req.tenant_id req.verbose net =
      (Except.error DataErr.rateLimitExceeded, prunedOnlyState st now, false) := by
    simp [poll_asyncgate_health, ComponentPoller.get_cached, hmiss, hurl,
      ComponentPoller.check_rate_limit, hfull, prunedOnlyState]
  refine ⟨h1, ?_, by decide⟩
  simp [health_async_interview, h1]

/-- Settings for the rate-limit fixtures: AsyncGate configured, ceiling of
2 calls per minute. -/
def rlSettings : Settings :=
  { asyncgate_url := some "http://gate", component_poll_rate_limit_per_minute := 2 }

/-- Poller state whose `asyncgate` window already holds two recent call
timestamps. -/
def pollerFull : ComponentPoller HealthData :=
  { rate_limiter := [("asyncgate", [900, 950])] }

/-- Health request fixture. -/
def reqHealth : HealthAsyncRequest := { tenant_id := "ten1" }

/-- Witness for the C9 theorem: with a full 2-per-minute window the poll is
rejected, the handler answers 429 and only the pruned timestamps remain. -/
theorem poll_rate_limited_surfaced_witness :
    poll_asyncgate_health rlSettings pollerFull 1000 reqHealth.tenant_id reqHealth.verbose (some {}) =
      (Except.error DataErr.rateLimitExceeded, prunedOnlyState pollerFull 1000, false) ∧
    health_async_interview rlSettings pollerFull reqHealth 1000 (some {}) =
      (Except.error 429, prunedOnlyState pollerFull 1000) ∧
    DataErr.rateLimitExceeded ≠ DataErr.sourceUnavailable :=
  poll_rate_limited_surfaced rlSettings pollerFull reqHealth 1000 (some {})
    (by decide) (by decide) (by decide)

/-- C10: whenever the queue handler produces a response (rather than a 429
error), a request with `include_examples = false` yields an empty `items`
list with `truncated = false` regardless of the polled payload, and in all
cases at most `min(requested limit, 50)` item headers are exposed. -/
theorem queue_items_bounded (settings : Settings)
    (st : ComponentPoller QueueData) (req : QueueAsyncRequest) (now : Nat)
    (net : Option QueueData) (hv : 1 ≤ req.limit) :
    ∀ resp st2,
      queue_async_interview settings st req now net = (Except.ok resp, st2) →
        (req.include_examples = false → resp.items = [] ∧ resp.metadata.truncated = false) ∧
        resp.items.length ≤ min req.limit 50 := by
  intro resp st2 h
  simp only [queue_async_interview] at h
  split at h
  · rename_i data age_ms st' nc heq
    simp only [Prod.mk.injEq, Except.ok.injEq] at h
    obtain ⟨hresp, hst⟩ := h
    subst hresp
    constructor
    · intro hinc
      have hitems :
          (if req.include_examples ∧ data.items.isSome then (data.items.getD []).take (min req.limit 50)
           else []) = ([] : List QueueItemHeader) := by
        simp [hinc]
      refine ⟨by simp [hitems], ?_⟩
      simp only [hitems]
      simp [decide_eq_false_iff_not]
      omega
    · by_cases hcond : req.include_examples ∧ data.items.isSome
      · simp only [hcond, if_true]
        simp [List.length_take]
      · simp [hcond]
  · rename_i st' nc heq
    simp only [Prod.mk.injEq, Except.ok.injEq] at h
    obtain ⟨hresp, hst⟩ := h
    subst hresp
    exact ⟨fun _ => ⟨rfl, rfl⟩, Nat.zero_le _⟩
  · simp at h

/-- Queue request fixture (`limit = 20`, `include_examples = false`). -/
def reqQueue : QueueAsyncRequest := { tenant_id := "ten1" }

/-- A queue item header present in the polled payload fixture. -/
def qitem0 : QueueItemHeader := { task_id := "q1", task_type := "work", status := "queued" }

/-- Polled payload containing one queue item. -/
def qdata0 : QueueData := { items := some [qitem0] }

/-- Response produced by the queue handler fixture run. -/
def respQueue0 : QueueAsyncResponse :=
  { queue_depth := 0,
    metadata := { source := Source.component_poll, freshness_age_ms := 0,
                  truncated := false, cost_units := 5 } }

/-- Poller state after the queue handler fixture run. -/
def pollerQueue1 : ComponentPoller QueueData :=
  { cache := [(queueCacheKey "ten1" none 20 false, (qdata0, 1000))],
    rate_limiter := [("asyncgate", [1000])] }

/-- Witness for the C10 theorem: a payload with an item is polled, yet with
`include_examples = false` the response exposes no items and is not
truncated. -/
theorem queue_items_bounded_witness :
    respQueue0.items = [] ∧ respQueue0.metadata.truncated = false ∧
    respQueue0.items.length ≤ min reqQueue.limit 50 := by
  have h := queue_items_bounded rlSettings {} reqQueue 1000 (some qdata0) (by decide)
    respQueue0 pollerQueue1 (by decide)
  exact ⟨(h.1 rfl).1, (h.1 rfl).2, h.2⟩

end InterView
